import Mathlib

/-!
Verification of the MALDER orchestration layer (src/MALDER/AlderMain.cpp).

This file gives a shallow embedding of the decision logic of `main` in
`AlderMain.cpp`: the fatal configuration checks, the choice between the
1-reference / 2-reference / multi-reference computation paths, the fit-start
distances passed to each weighted-LD computation (`alder.run`), the pairwise
admixture-test loop of the multi-reference branch, and the arguments passed to
`ExpFitALD::run_admixture_test`.

Machine doubles holding genetic distances are modelled as `WithTop ℚ`
(`⊤` stands for the C value `INFINITY`, the sentinel used by
`find_ld_corr_stops` for a reference whose correlated LD extends past the
ceiling).  Quantities produced by engine code that is not part of the
orchestration file (z-scores of the fitted decay and amplitude parameters,
the number of fit-start offsets tried) enter the model as abstract inputs in
`AlderConfig`.
-/

namespace Alder

/-- A fit-start distance: a genetic distance in Morgans, or `⊤` for the C
sentinel `INFINITY` (correlated LD extends past the no-override ceiling). -/
abbrev FitStart := WithTop ℚ

/-- The run configuration as seen by `main` after input processing:
`mincount`, the number of mixed individuals, whether an external weight file
was given (`pars.weightname != NULL`), the number of reference populations
with genotype data (`ref_freqs.size()`), the number of chromosomes available
(`alder.get_num_chroms_used()`), the per-reference fit-start distances
returned by `find_ld_corr_stops`, and the decay/amplitude z-scores of the
1-ref fit of each reference together with the significance threshold (these three
feed the 1-ref pre-test, whose body lives in engine code). `numFitStarts` is
the number of fit-start offsets tried by each `alder.run` call
(`fits_all_starts.size()`). -/
structure AlderConfig where
  mincount : ℕ
  numMixedIndivs : ℕ
  hasExternalWeights : Bool
  numRefFreqs : ℕ
  numChromsUsed : ℕ
  fitStarts : List FitStart
  zdecay : ℕ → ℚ
  zamp : ℕ → ℚ
  zsigThresh : ℚ
  numFitStarts : ℕ

/-- One `alder.run` invocation: the `num_alder_refs` argument (1 or 2), the
`ref_inds` argument, and the fit-start distance passed. -/
structure CurveRun where
  numAlderRefs : ℕ
  refInds : List ℕ
  fitStartDis : FitStart
deriving DecidableEq, Repr

/-- One `ExpFitALD::run_admixture_test` invocation: the two reference
indices and the last two arguments (`noCorrection` flag, correction
factor). -/
structure AdmixTest where
  r1 : ℕ
  r2 : ℕ
  noCorrection : Bool
  corrFactor : ℚ
deriving DecidableEq, Repr

/-- Identifies which fitted curve a `print_fit_diff` line compares:
a single-reference curve for reference `r`, or the two-reference curve. -/
inductive CurveId where
  | oneRef (r : ℕ)
  | twoRef
deriving DecidableEq, Repr

/-- One `print_fit_diff` invocation in the 2-reference admixture-test branch:
the fit-start offset index `f`, the two curves compared, and the parameter
whose fitted values are z-score-differenced (`"decay"` at every call site;
the integer argument 2 of the C++ call is engine-internal and not modelled). -/
structure FitDiff where
  offset : ℕ
  a : CurveId
  b : CurveId
  param : String
deriving DecidableEq, Repr

/-- Everything observable of one `main` execution that the orchestration file
determines: the fatal-error message if `fatalx` fired, the `alder.run`
invocations, the `run_admixture_test` invocations, the `print_fit_diff`
invocations, and the `finished: ...` message if the run ended by announcing
that the admixture test cannot be run. -/
structure RunOutcome where
  fatal : Option String
  curveRuns : List CurveRun
  admixTests : List AdmixTest
  fitDiffs : List FitDiff
  finishMsg : Option String
deriving DecidableEq, Repr

/-- Outcome of a run that dies in `fatalx(msg)`: nothing else happens. -/
def fatalOutcome (msg : String) : RunOutcome :=
  { fatal := some msg, curveRuns := [], admixTests := [], fitDiffs := [],
    finishMsg := none }

/-- Modelled from the spec: the body of `Alder::compute_mult_hyp_corr` is in
engine code not part of `AlderMain.cpp`; the spec describes the factor as "a
function of the number of eligible reference pairs actually tested (e.g.,
Bonferroni-style scaling by pair count)", so the model returns the number of
unordered pairs of references marked `true` in the argument vector. -/
def compute_mult_hyp_corr (use : List Bool) : ℚ :=
  (Nat.choose (use.count true) 2 : ℚ)

/-- Modelled from the spec and the documentation inside the source: the body of
`ExpFitALD::test_and_print_oneref_curve` is engine code not in
`AlderMain.cpp`; the algorithm comment in `AlderMain.cpp` ("are the
individual curves real?  check min z-score of amp, decay has p-value <
0.05", lines 27-28) and the pre-test summary print (lines 330-331, which
reports `z = min(zscore("decay"), zscore("amp_exp"))` beside each YES/NO)
fix the rule: the curve is declared real when the smaller of the decay and
amplitude z-scores exceeds the significance threshold. -/
def test_and_print_oneref_curve (zdecay zamp thresh : ℚ) : Bool :=
  min zdecay zamp > thresh

/-- The single-reference verdict rule as spec section 4.4 words it: "curve
exists ⇔ its decay-rate z-score exceeds a significance threshold".  Stated
for comparison with `test_and_print_oneref_curve` (refinement check). -/
def oneref_verdict_specform (zdecay _zamp thresh : ℚ) : Bool :=
  zdecay > thresh

/-- `*max_element(v.begin(), v.end())` on a nonempty vector of distances
(`AlderMain.cpp` line 204); the `[]` case is unreachable there. -/
def maxElement : List FitStart → FitStart
  | [] => 0
  | x :: xs => xs.foldl max x

/-- The `num_alder_refs` value `main` determines (lines 145-164) on the
non-fatal paths: 2 with an external weight file, else 1 for a single
reference population with genotype data, else 2. -/
def numAlderRefs (cfg : AlderConfig) : ℕ :=
  if cfg.hasExternalWeights then 2
  else if cfg.numRefFreqs = 1 then 1
  else 2

/-- The `ref_inds` vector `main` builds (lines 145-164): empty with an
external weight file (weights come from the file, not from reference
genotypes), `[0]` for one reference, `[0, 1]` for two, and empty in the
multiple-reference case (rebuilt per pair there). -/
def refIndsOf (cfg : AlderConfig) : List ℕ :=
  if cfg.hasExternalWeights then []
  else if cfg.numRefFreqs = 1 then [0]
  else if cfg.numRefFreqs = 2 then [0, 1]
  else []

/-- `has_oneref_curve[r]` as the multi-reference branch computes it (lines
295-319): `false` when `fit_starts[r] == INFINITY` (the pre-test is skipped
entirely), otherwise the result of `test_and_print_oneref_curve` on the
1-ref fit of reference `r`. -/
def hasOnerefCurve (cfg : AlderConfig) (r : ℕ) : Bool :=
  if cfg.fitStarts.getD r ⊤ = ⊤ then false
  else test_and_print_oneref_curve (cfg.zdecay r) (cfg.zamp r) cfg.zsigThresh

/-- The nested pair loop of the multi-reference branch (lines 342-368):
`r1` runs over `0 .. n-1` skipping ineligible references, `r2` over
`r1+1 .. n-1` skipping ineligible references; each surviving `(r1, r2)` is
emitted once, in loop order. -/
def pairList (n : ℕ) (elig : ℕ → Bool) : List (ℕ × ℕ) :=
  (List.range n).flatMap fun r1 =>
    if elig r1 then
      ((List.range n).filter fun r2 => decide (r1 < r2) && elig r2).map
        fun r2 => (r1, r2)
    else []

/-- The three `print_fit_diff` calls per fit-start offset in the
2-reference admixture-test branch (lines 257-267): the 1-ref curve of
reference 0 vs the 2-ref curve, the 1-ref curve of reference 1 vs the 2-ref
curve, and the 1-ref curve of reference 1 vs that of reference 0, all on the
`"decay"` parameter. -/
def twoRefFitDiffs (numFitStarts : ℕ) : List FitDiff :=
  (List.range numFitStarts).flatMap fun f =>
    [⟨f, .oneRef 0, .twoRef, "decay"⟩,
     ⟨f, .oneRef 1, .twoRef, "decay"⟩,
     ⟨f, .oneRef 1, .oneRef 0, "decay"⟩]

/-- The `num_ref_freqs <= 2` branch of `main` (lines 202-284): one
`alder.run` with `num_alder_refs`, `ref_inds` and fit start
`*max_element(fit_starts)`; then, when `num_alder_refs == 2`: with fewer
than 2 chromosomes the run finishes with the cannot-jackknife message; with
`ref_inds` empty (external weights) it finishes with the
need-reference-genotypes message; otherwise the two 1-ref curves are
computed (each fit from its own `fit_starts[r]`), the three fit-diffs are
printed per offset, and `run_admixture_test` is called with
`noCorrection = true` and correction factor `1.0`.  The
`num_alder_refs == 1` path computes the mixture-fraction bound (no
admixture test). -/
def lowRefPath (cfg : AlderConfig) : RunOutcome :=
  let mainCurve : CurveRun :=
    ⟨numAlderRefs cfg, refIndsOf cfg, maxElement cfg.fitStarts⟩
  if numAlderRefs cfg = 2 then
    if cfg.numChromsUsed < 2 then
      { fatal := none, curveRuns := [mainCurve], admixTests := [],
        fitDiffs := [],
        finishMsg :=
          some "finished: cannot test for admixture (need >= 2 chroms to jackknife)" }
    else if refIndsOf cfg = [] then
      { fatal := none, curveRuns := [mainCurve], admixTests := [],
        fitDiffs := [],
        finishMsg :=
          some "finished: cannot test for admixture (need reference genotypes)" }
    else
      { fatal := none,
        curveRuns := [mainCurve,
                      ⟨1, [0], cfg.fitStarts.getD 0 ⊤⟩,
                      ⟨1, [1], cfg.fitStarts.getD 1 ⊤⟩],
        admixTests := [⟨0, 1, true, 1⟩],
        fitDiffs := twoRefFitDiffs cfg.numFitStarts,
        finishMsg := none }
  else
    { fatal := none, curveRuns := [mainCurve], admixTests := [],
      fitDiffs := [], finishMsg := none }

/-- The multiple-reference branch of `main` (lines 288-369): fewer than 2
chromosomes is `fatalx`; otherwise each reference with a finite fit start
gets a 1-ref curve run (the pre-test), the multiple-hypothesis correction
factor is computed from an all-`true` vector of length `num_ref_freqs`
(line 335), and for every loop-ordered pair of references that both have a
significant 1-ref curve a 2-ref curve is run with fit start
`max(fit_starts[r1], fit_starts[r2])` followed by `run_admixture_test` with
`noCorrection = false` and that factor. -/
def multiRefPath (cfg : AlderConfig) : RunOutcome :=
  if cfg.numChromsUsed < 2 then
    fatalOutcome "cannot test for admixture: need >= 2 chroms to jackknife"
  else
    let pretestRuns : List CurveRun :=
      ((List.range cfg.numRefFreqs).filter
          fun r => !decide (cfg.fitStarts.getD r ⊤ = ⊤)).map
        fun r => ⟨1, [r], cfg.fitStarts.getD r ⊤⟩
    let multHypCorr := compute_mult_hyp_corr (List.replicate cfg.numRefFreqs true)
    let pairs := pairList cfg.numRefFreqs (hasOnerefCurve cfg)
    { fatal := none,
      curveRuns := pretestRuns ++ pairs.map (fun p =>
        ⟨2, [p.1, p.2],
         max (cfg.fitStarts.getD p.1 ⊤) (cfg.fitStarts.getD p.2 ⊤)⟩),
      admixTests := pairs.map fun p => ⟨p.1, p.2, false, multHypCorr⟩,
      fitDiffs := [],
      finishMsg := none }

/-- `main` from the first fatal check on (lines 123-369): abort on
`mincount > num_mixed_indivs`; with no external weights abort on zero
reference populations with genotype data, and on a single reference with
`mincount < 4`; then dispatch on `num_ref_freqs <= 2` between the
low-reference path and the multiple-reference path. -/
def mainRun (cfg : AlderConfig) : RunOutcome :=
  if cfg.mincount > cfg.numMixedIndivs then
    fatalOutcome "mincount must be <= num mixed indivs"
  else if cfg.hasExternalWeights = false ∧ cfg.numRefFreqs = 0 then
    fatalOutcome "no data from ref populations"
  else if cfg.hasExternalWeights = false ∧ cfg.numRefFreqs = 1 ∧ cfg.mincount < 4 then
    fatalOutcome "mincount must be >= 4 to compute single-reference LD (polyache)"
  else if cfg.numRefFreqs ≤ 2 then
    lowRefPath cfg
  else
    multiRefPath cfg

/-- The unordered reference pairs actually given an admixture test. -/
def testedPairs (cfg : AlderConfig) : List (ℕ × ℕ) :=
  (mainRun cfg).admixTests.map fun t => (t.r1, t.r2)

/-! ## Concrete configurations used by counterexamples and witnesses

Genetic distances only need to be concrete rationals for these proofs;
small integer values are used so that every instance evaluates by
kernel reduction.  Each counterexample and witness binds its own
configuration. -/

/-- Three references, one chromosome, everything else well-formed. -/
def cfgThreeRefOneChrom : AlderConfig :=
  { mincount := 4, numMixedIndivs := 10, hasExternalWeights := false,
    numRefFreqs := 3, numChromsUsed := 1,
    fitStarts := [(1 : ℚ), (1 : ℚ), (1 : ℚ)],
    zdecay := fun _ => 3, zamp := fun _ => 3, zsigThresh := 2,
    numFitStarts := 1 }

/-- The same scenario, bound separately for the C3 counterexample. -/
def cfgThreeRefOneChromB : AlderConfig :=
  { mincount := 4, numMixedIndivs := 10, hasExternalWeights := false,
    numRefFreqs := 3, numChromsUsed := 1,
    fitStarts := [(1 : ℚ), (1 : ℚ), (1 : ℚ)],
    zdecay := fun _ => 3, zamp := fun _ => 3, zsigThresh := 2,
    numFitStarts := 1 }

/-- Two references with genotype data but a single chromosome. -/
def cfgTwoRefOneChrom : AlderConfig :=
  { mincount := 4, numMixedIndivs := 10, hasExternalWeights := false,
    numRefFreqs := 2, numChromsUsed := 1,
    fitStarts := [(1 : ℚ), (1 : ℚ)],
    zdecay := fun _ => 3, zamp := fun _ => 3, zsigThresh := 2,
    numFitStarts := 1 }

/-- Three references, two chromosomes; reference 0 is ineligible
(`INFINITY` fit start), references 1 and 2 pass the pre-test (all
z-scores 3 against threshold 2). -/
def cfgThreeRefOneIneligible : AlderConfig :=
  { mincount := 4, numMixedIndivs := 10, hasExternalWeights := false,
    numRefFreqs := 3, numChromsUsed := 2,
    fitStarts := [⊤, (1 : ℚ), (1 : ℚ)],
    zdecay := fun _ => 3, zamp := fun _ => 3, zsigThresh := 2,
    numFitStarts := 1 }

/-- Three eligible references, two chromosomes. -/
def cfgThreeRefAllEligible : AlderConfig :=
  { mincount := 4, numMixedIndivs := 10, hasExternalWeights := false,
    numRefFreqs := 3, numChromsUsed := 2,
    fitStarts := [(1 : ℚ), (2 : ℚ), (3 : ℚ)],
    zdecay := fun _ => 3, zamp := fun _ => 3, zsigThresh := 2,
    numFitStarts := 1 }

/-- The same ineligible-reference scenario, bound separately for the C5
witness. -/
def cfgThreeRefOneIneligibleB : AlderConfig :=
  { mincount := 4, numMixedIndivs := 10, hasExternalWeights := false,
    numRefFreqs := 3, numChromsUsed := 2,
    fitStarts := [⊤, (1 : ℚ), (1 : ℚ)],
    zdecay := fun _ => 3, zamp := fun _ => 3, zsigThresh := 2,
    numFitStarts := 1 }

/-- A fully testable two-reference run: two references with genotype data,
two chromosomes, distinct fit starts, two fit-start offsets tried. -/
def cfgTwoRefTestable : AlderConfig :=
  { mincount := 4, numMixedIndivs := 10, hasExternalWeights := false,
    numRefFreqs := 2, numChromsUsed := 2,
    fitStarts := [(1 : ℚ), (2 : ℚ)],
    zdecay := fun _ => 3, zamp := fun _ => 3, zsigThresh := 2,
    numFitStarts := 2 }

/-- The same testable two-reference scenario, bound separately for the C7
witness. -/
def cfgTwoRefTestableB : AlderConfig :=
  { mincount := 4, numMixedIndivs := 10, hasExternalWeights := false,
    numRefFreqs := 2, numChromsUsed := 2,
    fitStarts := [(1 : ℚ), (2 : ℚ)],
    zdecay := fun _ => 3, zamp := fun _ => 3, zsigThresh := 2,
    numFitStarts := 2 }

/-- The same testable two-reference scenario, bound separately for the C9
witness. -/
def cfgTwoRefTestableC : AlderConfig :=
  { mincount := 4, numMixedIndivs := 10, hasExternalWeights := false,
    numRefFreqs := 2, numChromsUsed := 2,
    fitStarts := [(1 : ℚ), (2 : ℚ)],
    zdecay := fun _ => 3, zamp := fun _ => 3, zsigThresh := 2,
    numFitStarts := 2 }

/-- The 2-reference `alder.run` invocation of `cfgTwoRefTestableC`. -/
def runTwoRefTestableC : CurveRun :=
  ⟨2, [0, 1], maxElement cfgTwoRefTestableC.fitStarts⟩

/-- External weight file, no reference population with genotype data,
a single chromosome. -/
def cfgExternalOneChrom : AlderConfig :=
  { mincount := 4, numMixedIndivs := 10, hasExternalWeights := true,
    numRefFreqs := 0, numChromsUsed := 1,
    fitStarts := [(1 : ℚ)],
    zdecay := fun _ => 3, zamp := fun _ => 3, zsigThresh := 2,
    numFitStarts := 1 }

/-- External weight file, no reference population with genotype data,
two chromosomes. -/
def cfgExternalTwoChrom : AlderConfig :=
  { mincount := 4, numMixedIndivs := 10, hasExternalWeights := true,
    numRefFreqs := 0, numChromsUsed := 2,
    fitStarts := [(1 : ℚ)],
    zdecay := fun _ => 3, zamp := fun _ => 3, zsigThresh := 2,
    numFitStarts := 1 }

/-! ## Supporting lemmas -/

lemma mem_pairList {n : ℕ} {elig : ℕ → Bool} {r1 r2 : ℕ} :
    (r1, r2) ∈ pairList n elig ↔
      r1 < r2 ∧ r2 < n ∧ elig r1 = true ∧ elig r2 = true := by
  constructor
  · intro h
    obtain ⟨x, hx, hmem⟩ := List.mem_flatMap.1 h
    by_cases he : elig x = true
    · rw [if_pos he] at hmem
      obtain ⟨y, hy, heq⟩ := List.mem_map.1 hmem
      obtain ⟨hyr, hcond⟩ := List.mem_filter.1 hy
      obtain ⟨hx1, hy2⟩ := Prod.mk.inj heq
      subst hx1; subst hy2
      simp only [Bool.and_eq_true, decide_eq_true_eq] at hcond
      exact ⟨hcond.1, List.mem_range.1 hyr, he, hcond.2⟩
    · rw [if_neg he] at hmem
      exact absurd hmem (List.not_mem_nil _)
  · rintro ⟨h12, h2n, he1, he2⟩
    refine List.mem_flatMap.2 ⟨r1, List.mem_range.2 (lt_trans h12 h2n), ?_⟩
    rw [if_pos he1]
    exact List.mem_map.2 ⟨r2, List.mem_filter.2 ⟨List.mem_range.2 h2n,
      by simp [h12, he2]⟩, rfl⟩

lemma mem_pairList_pair {n : ℕ} {elig : ℕ → Bool} {p : ℕ × ℕ} :
    p ∈ pairList n elig ↔
      p.1 < p.2 ∧ p.2 < n ∧ elig p.1 = true ∧ elig p.2 = true := by
  obtain ⟨a, b⟩ := p
  exact mem_pairList

lemma nodup_pairList (n : ℕ) (elig : ℕ → Bool) : (pairList n elig).Nodup := by
  apply List.nodup_flatMap.2
  constructor
  · intro x _
    by_cases he : elig x = true
    · rw [if_pos he]
      exact ((List.nodup_range n).filter _).map fun a b h => by
        simpa using congrArg Prod.snd h
    · rw [if_neg he]; exact List.nodup_nil
  · refine (List.pairwise_lt_range n).imp (fun {a b} hab => ?_)
    intro q hqa hqb
    beta_reduce at hqa hqb
    have ha : q.1 = a := by
      by_cases he : elig a = true
      · rw [if_pos he] at hqa
        obtain ⟨y, _, heq⟩ := List.mem_map.1 hqa
        exact (congrArg Prod.fst heq).symm
      · rw [if_neg he] at hqa; exact absurd hqa (List.not_mem_nil _)
    have hb : q.1 = b := by
      by_cases he : elig b = true
      · rw [if_pos he] at hqb
        obtain ⟨y, _, heq⟩ := List.mem_map.1 hqb
        exact (congrArg Prod.fst heq).symm
      · rw [if_neg he] at hqb; exact absurd hqb (List.not_mem_nil _)
    exact absurd (ha ▸ hb) (Nat.ne_of_lt hab)

lemma mainRun_lowRef (cfg : AlderConfig)
    (h1 : ¬ cfg.mincount > cfg.numMixedIndivs)
    (h2 : ¬ (cfg.hasExternalWeights = false ∧ cfg.numRefFreqs = 0))
    (h3 : ¬ (cfg.hasExternalWeights = false ∧ cfg.numRefFreqs = 1 ∧ cfg.mincount < 4))
    (hle : cfg.numRefFreqs ≤ 2) :
    mainRun cfg = lowRefPath cfg := by
  unfold mainRun
  rw [if_neg h1, if_neg h2, if_neg h3, if_pos hle]

lemma mainRun_multiRef (cfg : AlderConfig)
    (h1 : ¬ cfg.mincount > cfg.numMixedIndivs)
    (hn : 2 < cfg.numRefFreqs) :
    mainRun cfg = multiRefPath cfg := by
  have h2 : ¬ (cfg.hasExternalWeights = false ∧ cfg.numRefFreqs = 0) := by
    rintro ⟨-, h⟩; omega
  have h3 : ¬ (cfg.hasExternalWeights = false ∧ cfg.numRefFreqs = 1 ∧ cfg.mincount < 4) := by
    rintro ⟨-, h, -⟩; omega
  have h4 : ¬ cfg.numRefFreqs ≤ 2 := by omega
  unfold mainRun
  rw [if_neg h1, if_neg h2, if_neg h3, if_neg h4]

lemma lowRefPath_fatal (cfg : AlderConfig) : (lowRefPath cfg).fatal = none := by
  simp only [lowRefPath]
  split_ifs <;> rfl

lemma lowRefPath_curveRuns_ne_nil (cfg : AlderConfig) :
    (lowRefPath cfg).curveRuns ≠ [] := by
  simp only [lowRefPath]
  split_ifs <;> simp

lemma multiRef_admixTests (cfg : AlderConfig)
    (h1 : ¬ cfg.mincount > cfg.numMixedIndivs)
    (hn : 2 < cfg.numRefFreqs)
    (hch : ¬ cfg.numChromsUsed < 2) :
    (mainRun cfg).admixTests =
      (pairList cfg.numRefFreqs (hasOnerefCurve cfg)).map fun p =>
        ⟨p.1, p.2, false, compute_mult_hyp_corr (List.replicate cfg.numRefFreqs true)⟩ := by
  rw [mainRun_multiRef cfg h1 hn]
  simp only [multiRefPath, if_neg hch]

/-! ## Claim theorems -/

/-- C2, counterexample: the claim says fewer than 2 chromosomes is never a
fatal error and the curve is still computed in every reference
configuration.  In the three-reference configuration `cfgThreeRefOneChrom`
(one chromosome, everything else well-formed) the run aborts through
`fatalx` before any weighted-LD curve is computed. -/
theorem c2_counterexample :
    (mainRun cfgThreeRefOneChrom).fatal =
      some "cannot test for admixture: need >= 2 chroms to jackknife" ∧
    (mainRun cfgThreeRefOneChrom).curveRuns = [] ∧
    (mainRun cfgThreeRefOneChrom).finishMsg = none := by
  decide

/-- C2, amended: with fewer than 2 chromosomes and no fatal configuration
error, the 1- and 2-reference configurations still complete — the weighted-LD
curve is computed, no admixture test runs, and (on the `num_alder_refs == 2`
path, the only one with a jackknife-dependent test) the run ends with the
explicit cannot-test message — while the three-or-more-reference
configuration aborts fatally before computing any curve. -/
theorem c2_low_chrom_behaviour (cfg : AlderConfig)
    (hch : cfg.numChromsUsed < 2)
    (h1 : ¬ cfg.mincount > cfg.numMixedIndivs)
    (h2 : ¬ (cfg.hasExternalWeights = false ∧ cfg.numRefFreqs = 0))
    (h3 : ¬ (cfg.hasExternalWeights = false ∧ cfg.numRefFreqs = 1 ∧ cfg.mincount < 4)) :
    (cfg.numRefFreqs ≤ 2 →
      (mainRun cfg).fatal = none ∧
      (mainRun cfg).curveRuns ≠ [] ∧
      (mainRun cfg).admixTests = [] ∧
      (numAlderRefs cfg = 2 →
        (mainRun cfg).finishMsg =
          some "finished: cannot test for admixture (need >= 2 chroms to jackknife)")) ∧
    (2 < cfg.numRefFreqs →
      (mainRun cfg).fatal =
        some "cannot test for admixture: need >= 2 chroms to jackknife" ∧
      (mainRun cfg).curveRuns = []) := by
  constructor
  · intro hle
    rw [mainRun_lowRef cfg h1 h2 h3 hle]
    simp only [lowRefPath]
    by_cases hna : numAlderRefs cfg = 2
    · rw [if_pos hna, if_pos hch]
      exact ⟨rfl, by simp, rfl, fun _ => rfl⟩
    · rw [if_neg hna]
      exact ⟨rfl, by simp, rfl, fun h => absurd h hna⟩
  · intro hn
    rw [mainRun_multiRef cfg h1 hn]
    simp only [multiRefPath, if_pos hch]
    exact ⟨rfl, rfl⟩

/-- C2, witness for the amended claim at `cfgTwoRefOneChrom` (two
references, one chromosome). -/
theorem c2_low_chrom_behaviour_witness :
    (cfgTwoRefOneChrom.numRefFreqs ≤ 2 →
      (mainRun cfgTwoRefOneChrom).fatal = none ∧
      (mainRun cfgTwoRefOneChrom).curveRuns ≠ [] ∧
      (mainRun cfgTwoRefOneChrom).admixTests = [] ∧
      (numAlderRefs cfgTwoRefOneChrom = 2 →
        (mainRun cfgTwoRefOneChrom).finishMsg =
          some "finished: cannot test for admixture (need >= 2 chroms to jackknife)")) ∧
    (2 < cfgTwoRefOneChrom.numRefFreqs →
      (mainRun cfgTwoRefOneChrom).fatal =
        some "cannot test for admixture: need >= 2 chroms to jackknife" ∧
      (mainRun cfgTwoRefOneChrom).curveRuns = []) :=
  c2_low_chrom_behaviour cfgTwoRefOneChrom (by decide) (by decide) (by decide)
    (by decide)

/-- C3, counterexample: the claim says the run aborts before any curve is
computed if and only if one of three configuration conditions holds.  In
`cfgThreeRefOneChromB` none of the three holds (mincount 4 ≤ 10 mixed
individuals, three reference populations with genotype data, no external
weights), yet the run aborts fatally before computing any curve, because the
three-or-more-reference branch requires at least 2 chromosomes. -/
theorem c3_counterexample :
    (mainRun cfgThreeRefOneChromB).fatal.isSome = true ∧
    (mainRun cfgThreeRefOneChromB).curveRuns = [] ∧
    ¬ (cfgThreeRefOneChromB.mincount > cfgThreeRefOneChromB.numMixedIndivs) ∧
    ¬ (cfgThreeRefOneChromB.hasExternalWeights = false ∧
        cfgThreeRefOneChromB.numRefFreqs = 0) ∧
    ¬ (cfgThreeRefOneChromB.hasExternalWeights = false ∧
        cfgThreeRefOneChromB.numRefFreqs = 1 ∧
        cfgThreeRefOneChromB.mincount < 4) := by
  decide

/-- C3, amended: the run aborts fatally — always before any curve is
computed — if and only if mincount exceeds the number of mixed individuals,
or no external weights are supplied and zero reference populations have
genotype data, or single-reference mode is entered (one reference with
genotype data, no external weights) with mincount < 4, or three or more
reference populations have genotype data and fewer than 2 chromosomes are
available for jackknifing. -/
theorem c3_fatal_iff (cfg : AlderConfig) :
    ((mainRun cfg).fatal.isSome ↔
      cfg.mincount > cfg.numMixedIndivs ∨
      (cfg.hasExternalWeights = false ∧ cfg.numRefFreqs = 0) ∨
      (cfg.hasExternalWeights = false ∧ cfg.numRefFreqs = 1 ∧ cfg.mincount < 4) ∨
      (2 < cfg.numRefFreqs ∧ cfg.numChromsUsed < 2)) ∧
    ((mainRun cfg).fatal.isSome → (mainRun cfg).curveRuns = []) := by
  unfold mainRun
  split_ifs with h1 h2 h3 hle
  · exact ⟨by simp [fatalOutcome, h1], fun _ => rfl⟩
  · exact ⟨by simp [fatalOutcome, h2], fun _ => rfl⟩
  · exact ⟨by simp [fatalOutcome, h3], fun _ => rfl⟩
  · have hfat := lowRefPath_fatal cfg
    constructor
    · rw [hfat]
      simp only [Option.isSome_none, Bool.false_eq_true, false_iff]
      rintro (h | h | h | ⟨h, -⟩)
      · exact h1 h
      · exact h2 h
      · exact h3 h
      · omega
    · rw [hfat]; intro h; exact absurd h (by simp)
  · simp only [multiRefPath]
    split_ifs with hch
    · refine ⟨?_, fun _ => rfl⟩
      simp only [fatalOutcome, Option.isSome_some, true_iff]
      exact Or.inr (Or.inr (Or.inr ⟨by omega, hch⟩))
    · constructor
      · simp only [Option.isSome_none, Bool.false_eq_true, false_iff]
        rintro (h | h | h | ⟨-, h⟩)
        · exact h1 h
        · exact h2 h
        · exact h3 h
        · exact hch h
      · intro h; exact absurd h (by simp)

/-- C1, counterexample: the claim says the multiple-hypothesis correction
factor reflects only the references still eligible after the pre-test.  In
`cfgThreeRefOneIneligible` reference 0 is ineligible (infinite start
distance), so only the pair (1, 2) is tested; the eligible-only factor would
be `compute_mult_hyp_corr [false, true, true] = 1`, but the factor actually
applied is 3, because line 335 of `AlderMain.cpp` passes an all-`true`
vector (`vector <bool> (num_ref_freqs, true)`) instead of
`has_oneref_curve`. -/
theorem c1_counterexample :
    (mainRun cfgThreeRefOneIneligible).admixTests.map AdmixTest.corrFactor = [3] ∧
    compute_mult_hyp_corr
      ((List.range cfgThreeRefOneIneligible.numRefFreqs).map fun r =>
        hasOnerefCurve cfgThreeRefOneIneligible r) = 1 ∧
    (3 : ℚ) ≠ 1 := by
  decide

/-- C1, amended: in the three-or-more-reference case the correction factor
applied to every pairwise admixture test is computed from an all-`true`
eligibility vector over all `num_ref_freqs` references — references with
infinite start distance or a failed pre-test still contribute to the
factor (they are excluded from the pairwise tests themselves, but not from
the factor). -/
theorem c1_corr_factor_from_all_refs (cfg : AlderConfig) (t : AdmixTest)
    (ht : t ∈ (mainRun cfg).admixTests)
    (hn : 2 < cfg.numRefFreqs) :
    t.corrFactor = compute_mult_hyp_corr (List.replicate cfg.numRefFreqs true) := by
  unfold mainRun at ht
  split_ifs at ht with h1 h2 h3 hle
  · simp [fatalOutcome] at ht
  · simp [fatalOutcome] at ht
  · simp [fatalOutcome] at ht
  · omega
  · simp only [multiRefPath] at ht
    split_ifs at ht with hch
    · simp [fatalOutcome] at ht
    · obtain ⟨p, -, rfl⟩ := List.mem_map.1 ht
      rfl

/-- C1, witness for the amended claim: in `cfgThreeRefAllEligible` the test
of pair (0, 1) carries factor `compute_mult_hyp_corr [true, true, true]`. -/
theorem c1_corr_factor_from_all_refs_witness :
    (⟨0, 1, false, 3⟩ : AdmixTest) ∈ (mainRun cfgThreeRefAllEligible).admixTests ∧
    (⟨0, 1, false, 3⟩ : AdmixTest).corrFactor =
      compute_mult_hyp_corr (List.replicate cfgThreeRefAllEligible.numRefFreqs true) :=
  ⟨by decide,
   c1_corr_factor_from_all_refs cfgThreeRefAllEligible ⟨0, 1, false, 3⟩
     (by decide) (by decide)⟩

/-- C4, confirmed: every admixture test launched in the two-or-fewer-
reference configuration is called with `noCorrection = true` and correction
factor 1, and every admixture test launched in the three-or-more-reference
configuration is called with `noCorrection = false` and the computed
multiple-hypothesis correction factor. -/
theorem c4_noCorrection_flag (cfg : AlderConfig) (t : AdmixTest)
    (ht : t ∈ (mainRun cfg).admixTests) :
    (cfg.numRefFreqs ≤ 2 → t.noCorrection = true ∧ t.corrFactor = 1) ∧
    (2 < cfg.numRefFreqs → t.noCorrection = false ∧
      t.corrFactor = compute_mult_hyp_corr (List.replicate cfg.numRefFreqs true)) := by
  unfold mainRun at ht
  split_ifs at ht with h1 h2 h3 hle
  · simp [fatalOutcome] at ht
  · simp [fatalOutcome] at ht
  · simp [fatalOutcome] at ht
  · simp only [lowRefPath] at ht
    split_ifs at ht with hna hch hri
    · simp at ht
    · simp at ht
    · rw [List.mem_singleton] at ht
      subst ht
      exact ⟨fun _ => ⟨rfl, rfl⟩, fun hgt => absurd hle (by omega)⟩
    · simp at ht
  · simp only [multiRefPath] at ht
    split_ifs at ht with hch
    · simp [fatalOutcome] at ht
    · obtain ⟨p, -, rfl⟩ := List.mem_map.1 ht
      exact ⟨fun h => absurd h (by omega), fun _ => ⟨rfl, rfl⟩⟩

/-- C4, witness: in the two-reference run `cfgTwoRefTestable` the one
admixture test launched has `noCorrection = true` and factor 1. -/
theorem c4_noCorrection_flag_witness :
    (cfgTwoRefTestable.numRefFreqs ≤ 2 →
      (⟨0, 1, true, 1⟩ : AdmixTest).noCorrection = true ∧
      (⟨0, 1, true, 1⟩ : AdmixTest).corrFactor = 1) ∧
    (2 < cfgTwoRefTestable.numRefFreqs →
      (⟨0, 1, true, 1⟩ : AdmixTest).noCorrection = false ∧
      (⟨0, 1, true, 1⟩ : AdmixTest).corrFactor =
        compute_mult_hyp_corr (List.replicate cfgTwoRefTestable.numRefFreqs true)) :=
  c4_noCorrection_flag cfgTwoRefTestable ⟨0, 1, true, 1⟩ (by decide)

/-- C5, confirmed: in the three-or-more-reference case (no fatal
configuration error, at least 2 chromosomes) the admixture tests launched
are exactly one per unordered pair of references that both passed the
single-reference pre-test — `(r1, r2)` is tested iff `r1 < r2 < num_ref_freqs`
and both have a 1-ref curve — with no pair tested twice, and a reference
marked ineligible (`has_oneref_curve` false, i.e. infinite start distance or
failed pre-test) appears in no tested pair at all. -/
theorem c5_pairwise_tests (cfg : AlderConfig)
    (h1 : ¬ cfg.mincount > cfg.numMixedIndivs)
    (hn : 2 < cfg.numRefFreqs)
    (hch : ¬ cfg.numChromsUsed < 2) :
    (testedPairs cfg).Nodup ∧
    (∀ r1 r2 : ℕ,
      ((r1, r2) ∈ testedPairs cfg ↔
        r1 < r2 ∧ r2 < cfg.numRefFreqs ∧
        hasOnerefCurve cfg r1 = true ∧ hasOnerefCurve cfg r2 = true)) ∧
    (∀ r : ℕ, hasOnerefCurve cfg r = false →
      ∀ p ∈ testedPairs cfg, p.1 ≠ r ∧ p.2 ≠ r) := by
  have hT : testedPairs cfg = pairList cfg.numRefFreqs (hasOnerefCurve cfg) := by
    unfold testedPairs
    rw [multiRef_admixTests cfg h1 hn hch, List.map_map]
    have hcomp : ((fun t : AdmixTest => (t.r1, t.r2)) ∘ fun p : ℕ × ℕ =>
        (⟨p.1, p.2, false,
          compute_mult_hyp_corr (List.replicate cfg.numRefFreqs true)⟩ : AdmixTest)) =
        id := by
      funext p; rfl
    rw [hcomp, List.map_id]
  rw [hT]
  refine ⟨nodup_pairList _ _, fun r1 r2 => mem_pairList, fun r hr p hp => ?_⟩
  have hmem := mem_pairList_pair.1 hp
  constructor
  · rintro rfl
    rw [hmem.2.2.1] at hr
    exact absurd hr (by simp)
  · rintro rfl
    rw [hmem.2.2.2] at hr
    exact absurd hr (by simp)

/-- C5, witness at `cfgThreeRefOneIneligibleB`: reference 0 is ineligible,
and the pair (1, 2) is tested exactly when both its members are eligible. -/
theorem c5_pairwise_tests_witness :
    (testedPairs cfgThreeRefOneIneligibleB).Nodup ∧
    ((1, 2) ∈ testedPairs cfgThreeRefOneIneligibleB ↔
      1 < 2 ∧ 2 < cfgThreeRefOneIneligibleB.numRefFreqs ∧
      hasOnerefCurve cfgThreeRefOneIneligibleB 1 = true ∧
      hasOnerefCurve cfgThreeRefOneIneligibleB 2 = true) ∧
    (hasOnerefCurve cfgThreeRefOneIneligibleB 0 = false →
      ∀ p ∈ testedPairs cfgThreeRefOneIneligibleB, p.1 ≠ 0 ∧ p.2 ≠ 0) :=
  ⟨(c5_pairwise_tests cfgThreeRefOneIneligibleB (by decide) (by decide) (by decide)).1,
   (c5_pairwise_tests cfgThreeRefOneIneligibleB (by decide) (by decide) (by decide)).2.1 1 2,
   (c5_pairwise_tests cfgThreeRefOneIneligibleB (by decide) (by decide) (by decide)).2.2 0⟩

/-- C7, confirmed: in the two-reference admixture-test branch the three
pairwise decay-rate fit-diff reports (each 1-ref curve against the 2-ref
curve, and the two 1-ref curves against each other) are emitted for every
tried fit-start offset, and nothing else is emitted.  The code emits them
before `run_admixture_test` is invoked and without branching on any fit or
test result, so they appear regardless of whether the consistency test
passes or fails — the theorem holds for every configuration in this branch,
whatever its z-scores and fit values. -/
theorem c7_fit_diffs_reported (cfg : AlderConfig)
    (h1 : ¬ cfg.mincount > cfg.numMixedIndivs)
    (hw : cfg.hasExternalWeights = false)
    (hn : cfg.numRefFreqs = 2)
    (hch : ¬ cfg.numChromsUsed < 2) :
    (∀ f : ℕ, f < cfg.numFitStarts →
      (⟨f, .oneRef 0, .twoRef, "decay"⟩ : FitDiff) ∈ (mainRun cfg).fitDiffs ∧
      (⟨f, .oneRef 1, .twoRef, "decay"⟩ : FitDiff) ∈ (mainRun cfg).fitDiffs ∧
      (⟨f, .oneRef 1, .oneRef 0, "decay"⟩ : FitDiff) ∈ (mainRun cfg).fitDiffs) ∧
    (∀ d ∈ (mainRun cfg).fitDiffs,
      d.offset < cfg.numFitStarts ∧ d.param = "decay" ∧
      (d ∈ [(⟨d.offset, .oneRef 0, .twoRef, "decay"⟩ : FitDiff),
            ⟨d.offset, .oneRef 1, .twoRef, "decay"⟩,
            ⟨d.offset, .oneRef 1, .oneRef 0, "decay"⟩])) := by
  have h2 : ¬ (cfg.hasExternalWeights = false ∧ cfg.numRefFreqs = 0) := by
    rintro ⟨-, h⟩; omega
  have h3 : ¬ (cfg.hasExternalWeights = false ∧ cfg.numRefFreqs = 1 ∧ cfg.mincount < 4) := by
    rintro ⟨-, h, -⟩; omega
  have hna : numAlderRefs cfg = 2 := by
    unfold numAlderRefs; rw [hw]; simp [hn]
  have hri : refIndsOf cfg = [0, 1] := by
    unfold refIndsOf; rw [hw]; simp [hn]
  have hfd : (mainRun cfg).fitDiffs = twoRefFitDiffs cfg.numFitStarts := by
    rw [mainRun_lowRef cfg h1 h2 h3 (by omega)]
    simp only [lowRefPath]
    rw [if_pos hna, if_neg hch, if_neg (by rw [hri]; simp)]
  constructor
  · intro f hf
    rw [hfd]
    refine ⟨?_, ?_, ?_⟩ <;>
      exact List.mem_flatMap.2 ⟨f, List.mem_range.2 hf, by simp⟩
  · intro d hd
    rw [hfd] at hd
    obtain ⟨f, hf, hdmem⟩ := List.mem_flatMap.1 hd
    have hfr := List.mem_range.1 hf
    simp only [List.mem_cons, List.not_mem_nil, or_false] at hdmem
    rcases hdmem with rfl | rfl | rfl <;> exact ⟨hfr, rfl, by simp⟩

/-- C7, witness at `cfgTwoRefTestableB` (two fit-start offsets), offset 1. -/
theorem c7_fit_diffs_reported_witness :
    (⟨1, .oneRef 0, .twoRef, "decay"⟩ : FitDiff) ∈ (mainRun cfgTwoRefTestableB).fitDiffs ∧
    (⟨1, .oneRef 1, .twoRef, "decay"⟩ : FitDiff) ∈ (mainRun cfgTwoRefTestableB).fitDiffs ∧
    (⟨1, .oneRef 1, .oneRef 0, "decay"⟩ : FitDiff) ∈ (mainRun cfgTwoRefTestableB).fitDiffs :=
  (c7_fit_diffs_reported cfgTwoRefTestableB (by decide) (by decide) (by decide)
    (by decide)).1 1 (by decide)

/-- C8, counterexample: the claim says the single-reference verdict declares
a curve exists iff the decay-rate z-score exceeds the threshold.  With
decay z-score 3, amplitude z-score 1 and threshold 2, the decay z-score
exceeds the threshold (the spec-form rule says YES) but the verdict is NO,
because the implemented rule takes the minimum of the decay and amplitude
z-scores (AlderMain.cpp lines 27-28 and 330-331). -/
theorem c8_counterexample :
    test_and_print_oneref_curve 3 1 2 = false ∧
    oneref_verdict_specform 3 1 2 = true ∧
    ¬ (test_and_print_oneref_curve 3 1 2 = true ↔ (3 : ℚ) > 2) := by
  decide

/-- C8, amended: the single-reference verdict rule declares that a curve
exists if and only if both the fitted decay-rate z-score and the fitted
amplitude z-score exceed the significance threshold (equivalently, the
minimum of the two z-scores does). -/
theorem c8_oneref_verdict_rule (zdecay zamp thresh : ℚ) :
    test_and_print_oneref_curve zdecay zamp thresh = true ↔
      zdecay > thresh ∧ zamp > thresh := by
  simp only [test_and_print_oneref_curve, gt_iff_lt, lt_min_iff, decide_eq_true_eq]

/-- C9, confirmed: every two-reference weighted-LD computation is fit from
the maximum of per-reference start distances — in the one-or-two-reference
configuration from `*max_element(fit_starts)`, and in each
three-or-more-reference pairwise test from
`max(fit_starts[r1], fit_starts[r2])` for the two paired references. -/
theorem c9_two_ref_fit_start (cfg : AlderConfig) (c : CurveRun)
    (hc : c ∈ (mainRun cfg).curveRuns)
    (h2 : c.numAlderRefs = 2) :
    (cfg.numRefFreqs ≤ 2 → c.fitStartDis = maxElement cfg.fitStarts) ∧
    (2 < cfg.numRefFreqs → ∃ r1 r2 : ℕ, r1 < r2 ∧ r2 < cfg.numRefFreqs ∧
      c.refInds = [r1, r2] ∧
      c.fitStartDis = max (cfg.fitStarts.getD r1 ⊤) (cfg.fitStarts.getD r2 ⊤)) := by
  unfold mainRun at hc
  split_ifs at hc with hf1 hf2 hf3 hle
  · simp [fatalOutcome] at hc
  · simp [fatalOutcome] at hc
  · simp [fatalOutcome] at hc
  · simp only [lowRefPath] at hc
    split_ifs at hc with hna hch hri
    · rw [List.mem_singleton] at hc; subst hc
      exact ⟨fun _ => rfl, fun hgt => absurd hle (by omega)⟩
    · rw [List.mem_singleton] at hc; subst hc
      exact ⟨fun _ => rfl, fun hgt => absurd hle (by omega)⟩
    · simp only [List.mem_cons, List.not_mem_nil, or_false] at hc
      rcases hc with rfl | rfl | rfl
      · exact ⟨fun _ => rfl, fun hgt => absurd hle (by omega)⟩
      · simp at h2
      · simp at h2
    · rw [List.mem_singleton] at hc; subst hc
      exact ⟨fun _ => rfl, fun hgt => absurd hle (by omega)⟩
  · simp only [multiRefPath] at hc
    split_ifs at hc with hch
    · simp [fatalOutcome] at hc
    · rw [List.mem_append] at hc
      rcases hc with hpre | hpair
      · obtain ⟨r, -, rfl⟩ := List.mem_map.1 hpre
        simp at h2
      · obtain ⟨p, hp, rfl⟩ := List.mem_map.1 hpair
        have hm := mem_pairList_pair.1 hp
        exact ⟨fun h => absurd h (by omega),
               fun _ => ⟨p.1, p.2, hm.1, hm.2.1, rfl, rfl⟩⟩

/-- C9, witness: the 2-reference run of `cfgTwoRefTestableC` is fit from
`*max_element(fit_starts)`. -/
theorem c9_two_ref_fit_start_witness :
    (cfgTwoRefTestableC.numRefFreqs ≤ 2 →
      runTwoRefTestableC.fitStartDis = maxElement cfgTwoRefTestableC.fitStarts) ∧
    (2 < cfgTwoRefTestableC.numRefFreqs → ∃ r1 r2 : ℕ,
      r1 < r2 ∧ r2 < cfgTwoRefTestableC.numRefFreqs ∧
      runTwoRefTestableC.refInds = [r1, r2] ∧
      runTwoRefTestableC.fitStartDis =
        max (cfgTwoRefTestableC.fitStarts.getD r1 ⊤)
          (cfgTwoRefTestableC.fitStarts.getD r2 ⊤)) :=
  c9_two_ref_fit_start cfgTwoRefTestableC runTwoRefTestableC (by decide) (by decide)

/-- C10, counterexample: the claim says the external-weights run always
finishes with the need-reference-genotypes message.  With a single
chromosome (`cfgExternalOneChrom`) the two-reference path is taken and no
admixture test runs, but the finishing message is the cannot-jackknife one,
because the chromosome check comes first (AlderMain.cpp line 228). -/
theorem c10_counterexample :
    (mainRun cfgExternalOneChrom).curveRuns.map CurveRun.numAlderRefs = [2] ∧
    (mainRun cfgExternalOneChrom).admixTests = [] ∧
    (mainRun cfgExternalOneChrom).finishMsg ≠
      some "finished: cannot test for admixture (need reference genotypes)" ∧
    (mainRun cfgExternalOneChrom).finishMsg =
      some "finished: cannot test for admixture (need >= 2 chroms to jackknife)" := by
  decide

/-- C10, amended: with external weights and zero reference populations with
genotype data, the run never aborts, always takes the two-reference
computation path (one `alder.run` with `num_alder_refs = 2` and empty
`ref_inds`), never runs the admixture test, and finishes with an explicit
message — the need-reference-genotypes message when at least 2 chromosomes
are available, and the cannot-jackknife message otherwise. -/
theorem c10_external_weights_no_test (cfg : AlderConfig)
    (hw : cfg.hasExternalWeights = true)
    (h1 : ¬ cfg.mincount > cfg.numMixedIndivs)
    (hn : cfg.numRefFreqs = 0) :
    (mainRun cfg).fatal = none ∧
    (mainRun cfg).curveRuns = [⟨2, [], maxElement cfg.fitStarts⟩] ∧
    (mainRun cfg).admixTests = [] ∧
    (mainRun cfg).finishMsg = some (if cfg.numChromsUsed < 2 then
        "finished: cannot test for admixture (need >= 2 chroms to jackknife)"
      else
        "finished: cannot test for admixture (need reference genotypes)") := by
  have h2 : ¬ (cfg.hasExternalWeights = false ∧ cfg.numRefFreqs = 0) := by
    rintro ⟨h, -⟩; rw [hw] at h; exact absurd h (by simp)
  have h3 : ¬ (cfg.hasExternalWeights = false ∧ cfg.numRefFreqs = 1 ∧ cfg.mincount < 4) := by
    rintro ⟨h, -, -⟩; rw [hw] at h; exact absurd h (by simp)
  have hna : numAlderRefs cfg = 2 := by
    unfold numAlderRefs; rw [hw]; simp
  have hri : refIndsOf cfg = [] := by
    unfold refIndsOf; rw [hw]; simp
  rw [mainRun_lowRef cfg h1 h2 h3 (by omega)]
  simp only [lowRefPath]
  rw [if_pos hna]
  by_cases hch : cfg.numChromsUsed < 2
  · rw [if_pos hch]
    exact ⟨rfl, by rw [hna, hri], rfl, by rw [if_pos hch]⟩
  · rw [if_neg hch, if_pos hri]
    exact ⟨rfl, by rw [hna, hri], rfl, by rw [if_neg hch]⟩

/-- C10, witness for the amended claim at `cfgExternalTwoChrom`: with two
chromosomes the run finishes with the need-reference-genotypes message. -/
theorem c10_external_weights_no_test_witness :
    (mainRun cfgExternalTwoChrom).fatal = none ∧
    (mainRun cfgExternalTwoChrom).curveRuns =
      [⟨2, [], maxElement cfgExternalTwoChrom.fitStarts⟩] ∧
    (mainRun cfgExternalTwoChrom).admixTests = [] ∧
    (mainRun cfgExternalTwoChrom).finishMsg =
      some (if cfgExternalTwoChrom.numChromsUsed < 2 then
        "finished: cannot test for admixture (need >= 2 chroms to jackknife)"
      else
        "finished: cannot test for admixture (need reference genotypes)") :=
  c10_external_weights_no_test cfgExternalTwoChrom rfl (by decide) rfl

end Alder
